import Mathlib

/-!
Verification of the session-token subsystem of the blog-management repository
(Go). The definitions below are a shallow embedding of:

* `internal/utils/jwt.go` — claim sets, token pairs, `GenerateTokenPair`,
  `ValidateToken`, `RefreshTokens`, on top of a model of
  `golang-jwt/v5`'s `jwt.ParseWithClaims`;
* `internal/services/auth_service.go` — `Register`, `Login`, `RefreshToken`;
* `internal/repositories/user_repository.go` — `Create`, `FindByID`,
  `FindByEmail` over an in-memory table;
* `internal/middleware/auth_middleware.go` — `RequireRole`.

Modelling conventions: UUIDs are naturals (with `0` standing for `uuid.Nil`);
instants and durations are naturals counting seconds, matching the
second-level truncation `jwt.NewNumericDate` applies; the several
`time.Now()` calls inside one `GenerateTokenPair` invocation therefore all
yield one instant `now`. The bcrypt hasher lives outside the repository and
is passed in as an opaque `hash` / `verify` function, exactly as the services
consume it. The SQL store is a list of user rows; each query is translated
clause for clause.
-/

namespace BlogMgmt

/-- UUIDs, abstracted to naturals; `0` plays the role of `uuid.Nil`. -/
abbrev UUID := Nat

/-- The `uuid.Nil` constant. -/
def uuidNil : UUID := 0

/-- `utils.JWTClaims`: the identity fields plus the `jwt.RegisteredClaims`
fields that `GenerateTokenPair` populates (`ExpiresAt`, `IssuedAt`,
`NotBefore`, `Issuer`, `Subject`). `Subject` is set to `userID.String()` in
the source and `uuid.Parse` inverts `UUID.String`, so the subject is kept
UUID-typed here. -/
structure JWTClaims where
  userID : UUID
  username : String
  email : String
  role : String
  expiresAt : Nat
  issuedAt : Nat
  notBefore : Nat
  issuer : String
  subject : UUID
deriving Repr, DecidableEq

/-- A compact JWT string, abstracted: either not a structurally valid JWT at
all, or the serialization of a claim set carrying an HS256 MAC keyed by a
secret. The MAC of a well-formed token verifies under a key exactly when the
key equals the signing secret. -/
inductive TokenString where
  | malformed : TokenString
  | signed : String → JWTClaims → TokenString
deriving Repr, DecidableEq

/-- The Go error values the embedded code returns or inspects with
`errors.Is` (which, for these sentinel values, is identity comparison).
`jwtMalformed`, `jwtSignatureInvalid`, `jwtExpired` and `jwtNotValidYet`
are `golang-jwt/v5` sentinels; the `err...` constructors are the package-level
`errors.New` values of `utils`, `services` and `repositories`. -/
inductive GoError where
  | jwtMalformed
  | jwtSignatureInvalid
  | jwtExpired
  | jwtNotValidYet
  | errInvalidToken
  | errExpiredToken
  | errInvalidCredentials
  | errUserNotActive
  | errUserNotFound
  | errEmailAlreadyExists
  | errUsernameAlreadyExists
deriving Repr, DecidableEq

/-- `errors.Is(err, jwt.ErrTokenExpired)`: among the errors a parse can
produce, only the expiry sentinel (possibly wrapped, which `errors.Is`
unwraps) matches. -/
def errorsIsTokenExpired : GoError → Bool
  | .jwtExpired => true
  | _ => false

/-- `jwt.ParseWithClaims(tokenString, claims, keyfunc)` of `golang-jwt/v5`
where the key function returns `secret`: a structurally invalid string fails
with `ErrTokenMalformed` before any verification; a well-formed token whose
MAC does not verify under `secret` fails with `ErrTokenSignatureInvalid` and
its claims are never validated; once the signature verifies, the default
validator checks expiry (`now` must be before `exp`) and not-before (`now`
must not be before `nbf`) — issuer and issued-at are not validated without
parser options, and none are passed. When expiry and not-before are both
violated the joined error still satisfies `errors.Is(err, ErrTokenExpired)`,
which the expiry-first ordering reproduces. On success the parsed token is
`Valid` and carries the claims. -/
def parseWithClaims (tok : TokenString) (secret : String) (now : Nat) :
    Except GoError JWTClaims :=
  match tok with
  | .malformed => .error .jwtMalformed
  | .signed sk c =>
    if sk ≠ secret then .error .jwtSignatureInvalid
    else if c.expiresAt ≤ now then .error .jwtExpired
    else if now < c.notBefore then .error .jwtNotValidYet
    else .ok c

/-- `utils.TokenPair`. -/
structure TokenPair where
  accessToken : TokenString
  refreshToken : TokenString
deriving Repr, DecidableEq

/-- The `jwtService` struct of `internal/utils/jwt.go`: two secrets and two
expiry durations (in seconds). -/
structure jwtService where
  accessSecret : String
  refreshSecret : String
  accessExpiry : Nat
  refreshExpiry : Nat
deriving Repr, DecidableEq

/-- The `accessClaims` literal built inside `GenerateTokenPair`: identity
fields as passed, `exp = now + accessExpiry`, `iat = nbf = now`, the fixed
issuer string, and the caller's id as subject. -/
def accessClaimsOf (s : jwtService) (userID : UUID)
    (username email role : String) (now : Nat) : JWTClaims :=
  { userID := userID
    username := username
    email := email
    role := role
    expiresAt := now + s.accessExpiry
    issuedAt := now
    notBefore := now
    issuer := "blog-management-api"
    subject := userID }

/-- The `refreshClaims` literal built inside `GenerateTokenPair`: identical
to the access claims except that `exp = now + refreshExpiry`. -/
def refreshClaimsOf (s : jwtService) (userID : UUID)
    (username email role : String) (now : Nat) : JWTClaims :=
  { userID := userID
    username := username
    email := email
    role := role
    expiresAt := now + s.refreshExpiry
    issuedAt := now
    notBefore := now
    issuer := "blog-management-api"
    subject := userID }

/-- `jwtService.GenerateTokenPair`: signs the access claims with the access
secret and the refresh claims with the refresh secret. `SignedString` can
fail only on a serialization error, which cannot occur for HS256 over these
claim types, so signing is total here. -/
def GenerateTokenPair (s : jwtService) (userID : UUID)
    (username email role : String) (now : Nat) : TokenPair :=
  { accessToken := .signed s.accessSecret (accessClaimsOf s userID username email role now)
    refreshToken := .signed s.refreshSecret (refreshClaimsOf s userID username email role now) }

/-- `jwtService.ValidateToken`, line for line: parse under the access secret;
on success return the claims (the `*JWTClaims` type assertion always succeeds
because the parser was handed a `&JWTClaims{}`); if that failed for a reason
other than expiry, re-parse under the refresh secret, rebinding `err`; return
the claims if the retry succeeded; finally classify whatever `err` now holds:
expiry gives `ErrExpiredToken`, anything else gives `ErrInvalidToken`. -/
def ValidateToken (s : jwtService) (tokenString : TokenString) (now : Nat) :
    Except GoError JWTClaims :=
  match parseWithClaims tokenString s.accessSecret now with
  | .ok claims => .ok claims
  | .error err =>
    if !errorsIsTokenExpired err then
      match parseWithClaims tokenString s.refreshSecret now with
      | .ok claims => .ok claims
      | .error err2 =>
        if errorsIsTokenExpired err2 then .error .errExpiredToken
        else .error .errInvalidToken
    else .error .errExpiredToken

/-- `jwtService.RefreshTokens`: parse strictly under the refresh secret; on
an expiry failure return `ErrExpiredToken`, on any other parse failure return
that error unchanged (`return nil, err` in the source — not
`ErrInvalidToken`; the `!token.Valid` and failed-type-assertion branches that
do return `ErrInvalidToken` are unreachable once the parse has succeeded);
on success mint a fresh pair from the decoded claims' identity fields. -/
def RefreshTokens (s : jwtService) (refreshToken : TokenString) (now : Nat) :
    Except GoError TokenPair :=
  match parseWithClaims refreshToken s.refreshSecret now with
  | .error err =>
    if errorsIsTokenExpired err then .error .errExpiredToken
    else .error err
  | .ok claims =>
    .ok (GenerateTokenPair s claims.userID claims.username claims.email claims.role now)

/-- `models.RoleAdmin`. -/
def RoleAdmin : String := "admin"

/-- `models.RoleUser`. -/
def RoleUser : String := "user"

/-- A row of the `users` table (`models.User`; the Posts/MediaFiles/AuditLogs
association slices are never touched by the embedded code). -/
structure User where
  id : UUID
  fullname : String
  email : String
  username : String
  passwordHash : String
  role : String
  avatarURL : String
  isActive : Bool
  createdAt : Nat
  updatedAt : Nat
  deletedAt : Option Nat
deriving Repr, DecidableEq

/-- The `users` table a `userRepository` queries, as a list of rows. -/
abbrev UserTable := List User

/-- The shared body of the repository's single-row lookups
(`findOneByQuery`): the first row the `WHERE` clause accepts, or
`ErrUserNotFound` when the query returns no row. -/
def findOneByQuery (db : UserTable) (p : User → Bool) : Except GoError User :=
  match db.find? p with
  | some u => .ok u
  | none => .error .errUserNotFound

/-- `userRepository.FindByID`: `WHERE id = $1 AND deleted_at IS NULL`. -/
def FindByID (db : UserTable) (id : UUID) : Except GoError User :=
  findOneByQuery db (fun u => u.id == id && u.deletedAt.isNone)

/-- `userRepository.FindByEmail`: `WHERE email = $1 AND deleted_at IS NULL`. -/
def FindByEmail (db : UserTable) (email : String) : Except GoError User :=
  findOneByQuery db (fun u => u.email == email && u.deletedAt.isNone)

/-- `userRepository.Create`: `SELECT COUNT(*) ... WHERE email = $1` (note: no
`deleted_at` filter, so soft-deleted rows count) and reject on a positive
count with `ErrEmailAlreadyExists`; same for the username with
`ErrUsernameAlreadyExists`; otherwise fill in the id when it is `uuid.Nil`
(`newID` stands for the fresh `uuid.New()`), stamp both timestamps with the
current instant, and insert the row. Returns the inserted row together with
the grown table; on rejection nothing is inserted. -/
def userRepositoryCreate (db : UserTable) (newID : UUID) (now : Nat)
    (user : User) : Except GoError (User × UserTable) :=
  if 0 < db.countP (fun u => u.email == user.email) then
    .error .errEmailAlreadyExists
  else if 0 < db.countP (fun u => u.username == user.username) then
    .error .errUsernameAlreadyExists
  else
    let u := { user with
      id := if user.id == uuidNil then newID else user.id
      createdAt := now
      updatedAt := now }
    .ok (u, db ++ [u])

/-- `models.RegisterRequest` (the bound JSON body). -/
structure RegisterRequest where
  email : String
  fullname : String
  username : String
  password : String
  role : String
deriving Repr, DecidableEq

/-- `models.LoginRequest`. -/
structure LoginRequest where
  email : String
  password : String
deriving Repr, DecidableEq

/-- `models.UserResponse` as the auth service populates it (`Fullname` is
left at its zero value by all three flows). -/
structure UserResponse where
  id : UUID
  email : String
  username : String
  role : String
  avatarURL : String
  isActive : Bool
  createdAt : Nat
deriving Repr, DecidableEq

/-- `models.AuthResponse`: the user snapshot, both tokens, and
`expires_in = int64(accessExpiry.Seconds())`. -/
structure AuthResponse where
  user : UserResponse
  accessToken : TokenString
  refreshToken : TokenString
  expiresIn : Nat
deriving Repr, DecidableEq

/-- The `authService` struct: its JWT service and the configured access
expiry it echoes as `expires_in`. The user repository is the `UserTable`
passed to each flow, and the external bcrypt hasher is passed as an opaque
function, mirroring how the service consumes `utils.HashPassword` /
`utils.VerifyPassword`. -/
structure authService where
  jwt : jwtService
  accessExpiry : Nat
deriving Repr, DecidableEq

/-- The `models.AuthResponse` literal all three auth flows build from a user
row and a freshly minted pair. -/
def buildAuthResponse (svc : authService) (user : User) (tokens : TokenPair) :
    AuthResponse :=
  { user := { id := user.id
              email := user.email
              username := user.username
              role := user.role
              avatarURL := user.avatarURL
              isActive := user.isActive
              createdAt := user.createdAt }
    accessToken := tokens.accessToken
    refreshToken := tokens.refreshToken
    expiresIn := svc.accessExpiry }

/-- The `models.User` literal `authService.Register` builds: the hashed
password (hashing happens before any conflict check), default role `user`,
`IsActive: true`, and an unset id (`uuid.Nil`); the request's fullname and
role fields are not copied. -/
def registerUserRow (hash : String → String) (req : RegisterRequest) : User :=
  { id := uuidNil
    fullname := ""
    email := req.email
    username := req.username
    passwordHash := hash req.password
    role := RoleUser
    avatarURL := ""
    isActive := true
    createdAt := 0
    updatedAt := 0
    deletedAt := none }

/-- `authService.Register`: build the new user row, hand it to
`userRepository.Create`, then mint a pair for the created row. The updated
table is returned alongside so that the effect on the store is visible; a
repository rejection leaves the table as it was. -/
def Register (svc : authService) (hash : String → String) (db : UserTable)
    (newID : UUID) (now : Nat) (req : RegisterRequest) :
    Except GoError AuthResponse × UserTable :=
  match userRepositoryCreate db newID now (registerUserRow hash req) with
  | .error e => (.error e, db)
  | .ok (u, db2) =>
    let tokens := GenerateTokenPair svc.jwt u.id u.username u.email u.role now
    (.ok (buildAuthResponse svc u tokens), db2)

/-- The row `userRepository.Create` actually inserts for `Register`'s user:
the request row carries `uuid.Nil`, so the fresh id is filled in, and both
timestamps are stamped with the current instant. -/
def createdRegisterRow (hash : String → String) (newID : UUID) (now : Nat)
    (req : RegisterRequest) : User :=
  { registerUserRow hash req with id := newID, createdAt := now, updatedAt := now }

/-- `authService.Login`: find by email, translating `ErrUserNotFound` into
`ErrInvalidCredentials`; reject inactive accounts with `ErrUserNotActive`
(before the password is ever checked); reject a failed password
verification with `ErrInvalidCredentials`; otherwise mint a pair. -/
def Login (svc : authService) (verify : String → String → Bool)
    (db : UserTable) (now : Nat) (req : LoginRequest) :
    Except GoError AuthResponse :=
  match FindByEmail db req.email with
  | .error e =>
    if e == .errUserNotFound then .error .errInvalidCredentials else .error e
  | .ok user =>
    if !user.isActive then .error .errUserNotActive
    else if !verify user.passwordHash req.password then
      .error .errInvalidCredentials
    else
      let tokens := GenerateTokenPair svc.jwt user.id user.username user.email user.role now
      .ok (buildAuthResponse svc user tokens)

/-- `authService.RefreshToken`: validate the presented token via
`jwtService.ValidateToken`, parse the decoded subject back into a UUID
(`uuid.Parse` inverts `UUID.String`, so on the UUID-typed subjects of this
model it always succeeds), re-fetch the account by that id, reject inactive
accounts with `ErrUserNotActive`, and only then rotate via
`jwtService.RefreshTokens`. -/
def AuthRefreshToken (svc : authService) (db : UserTable)
    (refreshToken : TokenString) (now : Nat) : Except GoError AuthResponse :=
  match ValidateToken svc.jwt refreshToken now with
  | .error e => .error e
  | .ok claims =>
    let userID : UUID := claims.subject
    match FindByID db userID with
    | .error e => .error e
    | .ok user =>
      if !user.isActive then .error .errUserNotActive
      else
        match RefreshTokens svc.jwt refreshToken now with
        | .error e => .error e
        | .ok tokens => .ok (buildAuthResponse svc user tokens)

/-- The outcome of one gin middleware handler: either `c.JSON(status, msg)`
followed by `c.Abort()`, or fall-through to `c.Next()`. -/
inductive MiddlewareResult where
  | abortStatus : Nat → String → MiddlewareResult
  | next : MiddlewareResult
deriving Repr, DecidableEq

/-- `AuthMiddleware.RequireRole(roles...)`: read `UserContextKey` from the
gin context (modelled as the optional claim set stored there; when the key is
present it was set by `Authenticate` and is always a `*utils.JWTClaims`, so
the source's type assertion succeeds); absence aborts with 401; then scan
`roles` for one equal to the claims' role, aborting with 403 when none
matches and falling through otherwise. -/
def RequireRole (roles : List String) (ctxUser : Option JWTClaims) :
    MiddlewareResult :=
  match ctxUser with
  | none => .abortStatus 401 "Unauthorized"
  | some jwtClaims =>
    let userRole := jwtClaims.role
    let hasRole := roles.any (fun role => userRole == role)
    if !hasRole then .abortStatus 403 "Forbidden: insufficient permissions"
    else .next

/-! Concrete fixtures used to instantiate the theorems below. -/

/-- A concretely configured JWT service: distinct secrets, a 15-minute access
lifetime and a 7-day refresh lifetime (the lifetimes the repository's README
documents), in seconds. -/
def svcFix : jwtService :=
  { accessSecret := "access-secret"
    refreshSecret := "refresh-secret"
    accessExpiry := 900
    refreshExpiry := 604800 }

/-- A concrete claim set whose expiry (instant 50) is already past at the
reference instant 100 used below. -/
def clExpired : JWTClaims :=
  { userID := 7
    username := "alice"
    email := "alice@x.com"
    role := "user"
    expiresAt := 50
    issuedAt := 10
    notBefore := 10
    issuer := "blog-management-api"
    subject := 7 }

/-- A concrete claim set that is still live at instant 100. -/
def clLive : JWTClaims :=
  { userID := 7
    username := "alice"
    email := "alice@x.com"
    role := "user"
    expiresAt := 1000
    issuedAt := 10
    notBefore := 10
    issuer := "blog-management-api"
    subject := 7 }

/-- A concrete auth service wrapping `svcFix`. -/
def authFix : authService :=
  { jwt := svcFix, accessExpiry := 900 }

/-- A concrete active user row. -/
def aliceRow : User :=
  { id := 7
    fullname := "Alice"
    email := "alice@x.com"
    username := "alice"
    passwordHash := "digest-alice"
    role := "user"
    avatarURL := ""
    isActive := true
    createdAt := 1
    updatedAt := 1
    deletedAt := none }

/-- A concrete deactivated user row. -/
def bobRow : User :=
  { id := 8
    fullname := "Bob"
    email := "bob@x.com"
    username := "bob"
    passwordHash := "digest-bob"
    role := "user"
    avatarURL := ""
    isActive := false
    createdAt := 1
    updatedAt := 1
    deletedAt := none }

/-- A concrete two-row user table. -/
def tableFix : UserTable := [aliceRow, bobRow]

/-- Equality of `Except` outcomes is decidable componentwise. -/
instance {ε α : Type} [DecidableEq ε] [DecidableEq α] : DecidableEq (Except ε α)
  | .ok a, .ok b =>
    if h : a = b then .isTrue (by rw [h])
    else .isFalse (by intro hc; cases hc; exact h rfl)
  | .ok _, .error _ => .isFalse (by intro hc; cases hc)
  | .error _, .ok _ => .isFalse (by intro hc; cases hc)
  | .error e, .error f =>
    if h : e = f then .isTrue (by rw [h])
    else .isFalse (by intro hc; cases hc; exact h rfl)

/-! Theorems settling the claims. -/

/-- C1 counterexample. The claim says: whenever the access-secret decode
fails for a reason other than expiry and the refresh-secret decode also fails
for any reason, including expiry, `ValidateToken` returns the Invalid error
and never the Expired error. Take the service `svcFix` and the token signed
with the refresh secret over the already-expired claim set `clExpired`, at
instant 100: the access-secret decode fails with a signature mismatch (not
expiry), the refresh-secret decode fails with expiry, yet `ValidateToken`
returns `ErrExpiredToken`, not `ErrInvalidToken` — because the source rebinds
`err` to the refresh-parse error before the final `errors.Is` expiry test. -/
theorem C1_counterexample :
    parseWithClaims (.signed svcFix.refreshSecret clExpired) svcFix.accessSecret 100
      = .error .jwtSignatureInvalid ∧
    errorsIsTokenExpired .jwtSignatureInvalid = false ∧
    parseWithClaims (.signed svcFix.refreshSecret clExpired) svcFix.refreshSecret 100
      = .error .jwtExpired ∧
    ValidateToken svcFix (.signed svcFix.refreshSecret clExpired) 100
      ≠ .error .errInvalidToken ∧
    ValidateToken svcFix (.signed svcFix.refreshSecret clExpired) 100
      = .error .errExpiredToken := by
  decide

/-- C1 (amended): when the access-secret decode fails for a reason other
than expiry and the refresh-secret decode also fails, `ValidateToken`
returns the Invalid error if the refresh-secret failure is also something
other than expiry, but returns the Expired error when the refresh-secret
decode fails with expiry. -/
theorem C1_validateToken_double_failure (s : jwtService) (tok : TokenString)
    (now : Nat) (e1 e2 : GoError)
    (h1 : parseWithClaims tok s.accessSecret now = .error e1)
    (hne : errorsIsTokenExpired e1 = false)
    (h2 : parseWithClaims tok s.refreshSecret now = .error e2) :
    ValidateToken s tok now =
      .error (if errorsIsTokenExpired e2 then .errExpiredToken
              else .errInvalidToken) := by
  simp only [ValidateToken, h1, hne, h2, Bool.not_false, if_true]
  cases h : errorsIsTokenExpired e2 <;> simp [h]

/-- C1 witness: the amended statement applied to the concrete service
`svcFix`, the refresh-signed expired token, and instant 100. -/
theorem C1_witness :
    ValidateToken svcFix (.signed svcFix.refreshSecret clExpired) 100 =
      .error (if errorsIsTokenExpired .jwtExpired then .errExpiredToken
              else .errInvalidToken) :=
  C1_validateToken_double_failure svcFix (.signed svcFix.refreshSecret clExpired)
    100 .jwtSignatureInvalid .jwtExpired (by decide) (by decide) (by decide)

/-- C2: a token carrying a valid signature under the access secret whose
expiry is in the past makes `ValidateToken` return the Expired error, for
every refresh secret whatsoever — the refresh secret does not enter the
result, so in particular the outcome is Expired (never Invalid) even when
the token would also fail under the refresh secret. -/
theorem C2_expired_access_token_is_authoritative (accessSecret refreshSecret : String)
    (accessExpiry refreshExpiry : Nat) (c : JWTClaims) (now : Nat)
    (hexp : c.expiresAt ≤ now) :
    ValidateToken
        { accessSecret := accessSecret, refreshSecret := refreshSecret
          accessExpiry := accessExpiry, refreshExpiry := refreshExpiry }
        (.signed accessSecret c) now
      = .error .errExpiredToken := by
  unfold ValidateToken parseWithClaims
  simp [hexp, errorsIsTokenExpired]

/-- C2 witness: the concrete expired claim set `clExpired` signed with
`svcFix`'s access secret, checked at instant 100 against a refresh secret
the token would fail under. -/
theorem C2_witness :
    clExpired.expiresAt ≤ 100 ∧
    ValidateToken
        { accessSecret := "access-secret", refreshSecret := "refresh-secret"
          accessExpiry := 900, refreshExpiry := 604800 }
        (.signed "access-secret" clExpired) 100
      = .error .errExpiredToken :=
  ⟨by decide,
   C2_expired_access_token_is_authoritative "access-secret" "refresh-secret"
     900 604800 clExpired 100 (by decide)⟩

/-- C3 counterexample. The claim says `RefreshTokens` returns the Invalid
error (`utils.ErrInvalidToken`) on every non-expiry decode failure. Take the
still-live claim set `clLive` signed with the access secret and presented to
`RefreshTokens` of `svcFix` at instant 100: the refresh-secret decode fails
with a signature mismatch, and the function returns that underlying jwt
signature error unchanged (`return nil, err` in the source), which is not
`ErrInvalidToken`. -/
theorem C3_counterexample :
    RefreshTokens svcFix (.signed svcFix.accessSecret clLive) 100
      = .error .jwtSignatureInvalid ∧
    RefreshTokens svcFix (.signed svcFix.accessSecret clLive) 100
      ≠ .error .errInvalidToken := by
  decide

/-- C3 (amended): `RefreshTokens` decodes its input only against the refresh
secret — under distinct secrets a token signed with the access secret is
always rejected with the jwt signature error, whatever its expiry. When the
refresh-secret decode fails with expiry it returns the Expired error, and
when it fails for any other reason it returns that underlying decode error
unchanged (signature-invalid, malformed, not-valid-yet), not the dedicated
Invalid error. -/
theorem C3_refreshTokens_error_mapping (s : jwtService) (tok : TokenString)
    (now : Nat) :
    (∀ e : GoError, parseWithClaims tok s.refreshSecret now = .error e →
       RefreshTokens s tok now =
         .error (if errorsIsTokenExpired e then .errExpiredToken else e)) ∧
    (∀ c : JWTClaims, s.accessSecret ≠ s.refreshSecret →
       RefreshTokens s (.signed s.accessSecret c) now
         = .error .jwtSignatureInvalid) := by
  constructor
  · intro e he
    simp only [RefreshTokens, he]
    cases h : errorsIsTokenExpired e <;> simp [h]
  · intro c hsec
    simp [RefreshTokens, parseWithClaims, hsec, errorsIsTokenExpired]

/-- C3 witness: the amended statement applied to `svcFix`, whose two secrets
differ, and the access-signed live token at instant 100. -/
theorem C3_witness :
    RefreshTokens svcFix (.signed svcFix.accessSecret clLive) 100
      = .error .jwtSignatureInvalid :=
  (C3_refreshTokens_error_mapping svcFix (.signed svcFix.accessSecret clLive)
    100).2 clLive (by decide)

/-- The claim-set invariant the spec states, together with the fixed issuer
constant the tokens carry. -/
def claimSetWellFormed (c : JWTClaims) : Prop :=
  c.notBefore ≤ c.issuedAt ∧ c.issuedAt < c.expiresAt ∧
    c.issuer = "blog-management-api"

/-- C4: both claim sets built by `GenerateTokenPair` — the access claim set
and the refresh claim set — satisfy `not_before ≤ issued_at < expires_at`
and carry the fixed issuer constant `blog-management-api`, provided the two
configured lifetimes are positive (with the several `time.Now()` reads of
one invocation collapsing to a single instant under the second-level
truncation `jwt.NewNumericDate` performs). -/
theorem C4_generated_claim_sets_well_formed (s : jwtService) (uid : UUID)
    (username email role : String) (now : Nat)
    (ha : 0 < s.accessExpiry) (hr : 0 < s.refreshExpiry) :
    claimSetWellFormed (accessClaimsOf s uid username email role now) ∧
    claimSetWellFormed (refreshClaimsOf s uid username email role now) ∧
    GenerateTokenPair s uid username email role now =
      { accessToken := .signed s.accessSecret (accessClaimsOf s uid username email role now)
        refreshToken := .signed s.refreshSecret (refreshClaimsOf s uid username email role now) } := by
  refine ⟨⟨?_, ?_, rfl⟩, ⟨?_, ?_, rfl⟩, rfl⟩ <;>
    simp [accessClaimsOf, refreshClaimsOf] <;> omega

/-- C4 witness: the invariant holds for the pair `svcFix` mints for Alice at
instant 100. -/
theorem C4_witness :
    claimSetWellFormed (accessClaimsOf svcFix 7 "alice" "alice@x.com" "user" 100) ∧
    claimSetWellFormed (refreshClaimsOf svcFix 7 "alice" "alice@x.com" "user" 100) ∧
    GenerateTokenPair svcFix 7 "alice" "alice@x.com" "user" 100 =
      { accessToken := .signed svcFix.accessSecret (accessClaimsOf svcFix 7 "alice" "alice@x.com" "user" 100)
        refreshToken := .signed svcFix.refreshSecret (refreshClaimsOf svcFix 7 "alice" "alice@x.com" "user" 100) } :=
  C4_generated_claim_sets_well_formed svcFix 7 "alice" "alice@x.com" "user" 100
    (by decide) (by decide)

/-- C5: against one and the same user table, a login with an email present
for no account and a login with the email of an existing active account but
a password failing verification both return the identical
`ErrInvalidCredentials` outcome — the two failure modes are observationally
indistinguishable. -/
theorem C5_login_enumeration_resistance (svc : authService)
    (verify : String → String → Bool) (db : UserTable) (now : Nat)
    (email1 pw1 email2 pw2 : String) (u : User)
    (h1 : FindByEmail db email1 = .error .errUserNotFound)
    (h2 : FindByEmail db email2 = .ok u)
    (hact : u.isActive = true)
    (hpw : verify u.passwordHash pw2 = false) :
    Login svc verify db now { email := email1, password := pw1 }
      = .error .errInvalidCredentials ∧
    Login svc verify db now { email := email2, password := pw2 }
      = .error .errInvalidCredentials := by
  constructor
  · simp [Login, h1]
  · simp [Login, h2, hact, hpw]

/-- C5 witness: in the concrete table, `carol@x.com` has no account while
`alice@x.com` belongs to the active row `aliceRow`; under a verifier that
rejects the supplied password, both logins yield `ErrInvalidCredentials`. -/
theorem C5_witness :
    Login authFix (fun _ _ => false) tableFix 100
        { email := "carol@x.com", password := "pw" }
      = .error .errInvalidCredentials ∧
    Login authFix (fun _ _ => false) tableFix 100
        { email := "alice@x.com", password := "wrong" }
      = .error .errInvalidCredentials :=
  C5_login_enumeration_resistance authFix (fun _ _ => false) tableFix 100
    "carol@x.com" "pw" "alice@x.com" "wrong" aliceRow
    (by decide) (by decide) (by decide) rfl

/-- C6: `RefreshTokens` is a pure function of the token, the secrets and the
clock — it takes no user directory at all — so for a still-valid
refresh-secret-signed token it succeeds at any two instants before expiry,
each time minting the new pair solely from the identity fields embedded in
the old token's claims, and the old token still decodes successfully at the
later instant (nothing is spent or blacklisted). -/
theorem C6_refresh_reusable_no_single_use (s : jwtService) (c : JWTClaims)
    (now1 now2 : Nat)
    (h1e : now1 < c.expiresAt) (h1n : c.notBefore ≤ now1)
    (h2e : now2 < c.expiresAt) (h2n : c.notBefore ≤ now2) :
    RefreshTokens s (.signed s.refreshSecret c) now1
      = .ok (GenerateTokenPair s c.userID c.username c.email c.role now1) ∧
    RefreshTokens s (.signed s.refreshSecret c) now2
      = .ok (GenerateTokenPair s c.userID c.username c.email c.role now2) ∧
    parseWithClaims (.signed s.refreshSecret c) s.refreshSecret now2 = .ok c := by
  have e1 : ¬ c.expiresAt ≤ now1 := by omega
  have n1 : ¬ now1 < c.notBefore := by omega
  have e2 : ¬ c.expiresAt ≤ now2 := by omega
  have n2 : ¬ now2 < c.notBefore := by omega
  refine ⟨?_, ?_, ?_⟩ <;> simp [RefreshTokens, parseWithClaims, e1, n1, e2, n2]

/-- C6 witness: the live refresh token over `clLive` is rotated at instants
100 and 200; both rotations succeed and it still decodes at instant 200. -/
theorem C6_witness :
    RefreshTokens svcFix (.signed svcFix.refreshSecret clLive) 100
      = .ok (GenerateTokenPair svcFix clLive.userID clLive.username clLive.email clLive.role 100) ∧
    RefreshTokens svcFix (.signed svcFix.refreshSecret clLive) 200
      = .ok (GenerateTokenPair svcFix clLive.userID clLive.username clLive.email clLive.role 200) ∧
    parseWithClaims (.signed svcFix.refreshSecret clLive) svcFix.refreshSecret 200
      = .ok clLive :=
  C6_refresh_reusable_no_single_use svcFix clLive 100 200
    (by decide) (by decide) (by decide) (by decide)

/-- C7: the orchestrator's `RefreshToken`, unlike the bare refresher,
re-fetches the account by the decoded subject id; whenever that lookup
returns a row with `is_active = false`, it returns `ErrUserNotActive` and no
token pair is issued. -/
theorem C7_orchestrator_refresh_rechecks_activation (svc : authService)
    (db : UserTable) (tok : TokenString) (now : Nat) (c : JWTClaims) (u : User)
    (hv : ValidateToken svc.jwt tok now = .ok c)
    (hf : FindByID db c.subject = .ok u)
    (hin : u.isActive = false) :
    AuthRefreshToken svc db tok now = .error .errUserNotActive ∧
    ∀ resp : AuthResponse, AuthRefreshToken svc db tok now ≠ .ok resp := by
  have h : AuthRefreshToken svc db tok now = .error .errUserNotActive := by
    simp [AuthRefreshToken, hv, hf, hin]
  refine ⟨h, fun resp hresp => ?_⟩
  rw [h] at hresp
  cases hresp

/-- A claim set for the deactivated user Bob, live at instant 100. -/
def clBob : JWTClaims :=
  { userID := 8
    username := "bob"
    email := "bob@x.com"
    role := "user"
    expiresAt := 1000
    issuedAt := 10
    notBefore := 10
    issuer := "blog-management-api"
    subject := 8 }

/-- C7 witness: Bob's still-valid refresh token decodes fine, but his row in
the concrete table is inactive, so the orchestrator's refresh answers
`ErrUserNotActive`. -/
theorem C7_witness :
    AuthRefreshToken authFix tableFix (.signed svcFix.refreshSecret clBob) 100
      = .error .errUserNotActive :=
  (C7_orchestrator_refresh_rechecks_activation authFix tableFix
    (.signed svcFix.refreshSecret clBob) 100 clBob bobRow
    (by decide) (by decide) (by decide)).1

/-- C8: `Register` returns `ErrEmailAlreadyExists` when some row of the
table carries the requested email and `ErrUsernameAlreadyExists` when (the
email being free) some row carries the requested username, in both cases
leaving the table untouched; with neither conflict it inserts exactly one
row with default role `user` and `IsActive = true` and answers with a pair
freshly minted for the new account. -/
theorem C8_register_conflicts_and_creation (svc : authService)
    (hash : String → String) (db : UserTable) (newID : UUID) (now : Nat)
    (req : RegisterRequest) :
    ((∃ u ∈ db, u.email = req.email) →
       Register svc hash db newID now req = (.error .errEmailAlreadyExists, db)) ∧
    ((∀ u ∈ db, u.email ≠ req.email) → (∃ u ∈ db, u.username = req.username) →
       Register svc hash db newID now req = (.error .errUsernameAlreadyExists, db)) ∧
    ((∀ u ∈ db, u.email ≠ req.email) → (∀ u ∈ db, u.username ≠ req.username) →
       Register svc hash db newID now req =
         (.ok (buildAuthResponse svc (createdRegisterRow hash newID now req)
            (GenerateTokenPair svc.jwt newID req.username req.email RoleUser now)),
          db ++ [createdRegisterRow hash newID now req]) ∧
       (createdRegisterRow hash newID now req).role = RoleUser ∧
       (createdRegisterRow hash newID now req).isActive = true) := by
  refine ⟨?_, ?_, ?_⟩
  · intro h
    have hc : 0 < db.countP (fun u => u.email == (registerUserRow hash req).email) := by
      refine List.countP_pos_iff.mpr ?_
      obtain ⟨u, hu, he⟩ := h
      exact ⟨u, hu, by simp [registerUserRow, he]⟩
    simp [Register, userRepositoryCreate, hc]
  · intro hno h
    have hc0 : db.countP (fun u => u.email == (registerUserRow hash req).email) = 0 := by
      refine List.countP_eq_zero.mpr ?_
      intro u hu
      simp [registerUserRow]
      exact hno u hu
    have hc : 0 < db.countP (fun u => u.username == (registerUserRow hash req).username) := by
      refine List.countP_pos_iff.mpr ?_
      obtain ⟨u, hu, he⟩ := h
      exact ⟨u, hu, by simp [registerUserRow, he]⟩
    simp [Register, userRepositoryCreate, hc0, hc]
  · intro hno1 hno2
    have hne1 : ¬ ∃ a ∈ db, a.email = req.email := by
      rintro ⟨a, ha, he⟩
      exact hno1 a ha he
    have hne2 : ¬ ∃ a ∈ db, a.username = req.username := by
      rintro ⟨a, ha, he⟩
      exact hno2 a ha he
    refine ⟨?_, rfl, rfl⟩
    simp [Register, userRepositoryCreate, createdRegisterRow, registerUserRow,
      uuidNil, hne1, hne2]

/-- C8 witness: registering `carol` with a fresh email and username against
the concrete two-row table creates her row with role `user` and
`IsActive = true`, and registering with Alice's email conflicts. -/
theorem C8_witness :
    (Register authFix (fun p => String.append "digest-" p) tableFix 9 100
        { email := "alice@x.com", fullname := "Carol", username := "carol",
          password := "pw12345678", role := "admin" }
      = (.error .errEmailAlreadyExists, tableFix)) ∧
    (Register authFix (fun p => String.append "digest-" p) tableFix 9 100
        { email := "carol@x.com", fullname := "Carol", username := "carol",
          password := "pw12345678", role := "admin" }
      = (.ok (buildAuthResponse authFix
          (createdRegisterRow (fun p => String.append "digest-" p) 9 100
            { email := "carol@x.com", fullname := "Carol", username := "carol",
              password := "pw12345678", role := "admin" })
          (GenerateTokenPair authFix.jwt 9 "carol" "carol@x.com" RoleUser 100)),
         tableFix ++ [createdRegisterRow (fun p => String.append "digest-" p) 9 100
          { email := "carol@x.com", fullname := "Carol", username := "carol",
            password := "pw12345678", role := "admin" }])) :=
  ⟨(C8_register_conflicts_and_creation authFix (fun p => String.append "digest-" p)
      tableFix 9 100
      { email := "alice@x.com", fullname := "Carol", username := "carol",
        password := "pw12345678", role := "admin" }).1
    ⟨aliceRow, by decide, by decide⟩,
   ((C8_register_conflicts_and_creation authFix (fun p => String.append "digest-" p)
      tableFix 9 100
      { email := "carol@x.com", fullname := "Carol", username := "carol",
        password := "pw12345678", role := "admin" }).2.2
    (by decide) (by decide)).1⟩

/-- C9: `RequireRole` with no claim set in the context aborts with 401
Unauthorized; with a claim set whose role is outside the allowed list it
aborts with 403 Forbidden; with a role inside the list it falls through —
and in particular `RequireRole("admin")` rejects `role = "user"` with 403
and accepts `role = "admin"`. -/
theorem C9_requireRole_gate (roles : List String) (c : JWTClaims) :
    RequireRole roles none = .abortStatus 401 "Unauthorized" ∧
    (c.role ∉ roles →
      RequireRole roles (some c)
        = .abortStatus 403 "Forbidden: insufficient permissions") ∧
    (c.role ∈ roles → RequireRole roles (some c) = .next) ∧
    (∀ c2 : JWTClaims, c2.role = "user" →
      RequireRole ["admin"] (some c2)
        = .abortStatus 403 "Forbidden: insufficient permissions") ∧
    (∀ c2 : JWTClaims, c2.role = "admin" →
      RequireRole ["admin"] (some c2) = .next) := by
  refine ⟨rfl, ?_, ?_, ?_, ?_⟩
  · intro h
    have hany : roles.any (fun role => c.role == role) = false := by
      rw [List.any_eq_false]
      intro r hr
      simp only [beq_iff_eq]
      intro he
      exact h (he ▸ hr)
    simp [RequireRole, hany]
  · intro h
    have hany : roles.any (fun role => c.role == role) = true :=
      List.any_eq_true.mpr ⟨c.role, h, by simp⟩
    simp [RequireRole, hany]
  · intro c2 h
    simp [RequireRole, h]
  · intro c2 h
    simp [RequireRole, h]

/-- C9 witness: with Alice's `role = "user"` claim set in context,
`RequireRole("admin")` aborts with 403; with Bob's claims upgraded to
`role = "admin"` it falls through; with an empty context it aborts 401. -/
theorem C9_witness :
    RequireRole ["admin"] none = .abortStatus 401 "Unauthorized" ∧
    RequireRole ["admin"] (some clLive)
      = .abortStatus 403 "Forbidden: insufficient permissions" ∧
    RequireRole ["admin"] (some { clLive with role := "admin" }) = .next :=
  ⟨(C9_requireRole_gate ["admin"] clLive).1,
   (C9_requireRole_gate ["admin"] clLive).2.2.2.1 clLive rfl,
   (C9_requireRole_gate ["admin"] clLive).2.2.2.2 { clLive with role := "admin" } rfl⟩

/-- C10 (implicit): `Login` tests `is_active` before it ever verifies the
password, so an account with `is_active = false` draws `ErrUserNotActive`
for every verifier and every supplied password — unlike
`ErrInvalidCredentials`, this outcome tells a caller who does not know the
password that an account exists for the email. -/
theorem C10_inactive_checked_before_password (svc : authService)
    (db : UserTable) (now : Nat) (email : String) (u : User)
    (hf : FindByEmail db email = .ok u) (hin : u.isActive = false) :
    ∀ (verify : String → String → Bool) (password : String),
      Login svc verify db now { email := email, password := password }
        = .error .errUserNotActive := by
  intro verify password
  simp [Login, hf, hin]

/-- C10 witness: Bob's account is inactive, so logging in as Bob returns
`ErrUserNotActive` even under a verifier that accepts every password. -/
theorem C10_witness :
    Login authFix (fun _ _ => true) tableFix 100
        { email := "bob@x.com", password := "whatever" }
      = .error .errUserNotActive :=
  C10_inactive_checked_before_password authFix tableFix 100 "bob@x.com" bobRow
    (by decide) (by decide) (fun _ _ => true) "whatever"

end BlogMgmt
